import Mathlib

/-!
Shallow embedding of `src/capi/nspy_glue.c` from python-neuroshare: the C glue
between the Python binding and a dynamically loaded Neuroshare vendor library.
Native buffers are lists of machine bytes; the native vendor library is an
oracle supplied as explicit arguments (status code, last-error text, and the
buffer contents it writes). Machine integers are modelled as `Nat` with
explicit `% 2 ^ w` at every narrowing conversion the C code performs.
-/

/-- A machine byte as stored in a native buffer. -/
abbrev Byte := Fin 256

/-- The unsigned value of a byte list in little-endian order (the native
byte order assumed throughout `nspy_glue.c`, which dereferences multi-byte
integers directly from the buffer). -/
def readLE : List Byte → Nat
  | [] => 0
  | b :: rest => b.val + 256 * readLE rest

/-- `uint8_from_data` (nspy_glue.c:58-84). Branches on `data_len`:
width 1 dereferences one byte; width 2 also dereferences only one byte
(`ret = *(uint8 *) data;`); width 4 dereferences a `uint32` and casts it to
`uint8` (modelled as `% 2 ^ 8`); any other width yields 0. -/
def uint8_from_data (data : List Byte) (data_len : Nat) : Nat :=
  if data_len = 1 then readLE (data.take 1)
  else if data_len = 2 then readLE (data.take 1)
  else if data_len = 4 then readLE (data.take 4) % 2 ^ 8
  else 0

/-- `uint16_from_data` (nspy_glue.c:86-112). Width 1 dereferences one byte
widened to `uint16`; width 2 dereferences a `uint16`; width 4 dereferences a
`uint32` and casts it to `uint16` (`% 2 ^ 16`); any other width yields 0. -/
def uint16_from_data (data : List Byte) (data_len : Nat) : Nat :=
  if data_len = 1 then readLE (data.take 1)
  else if data_len = 2 then readLE (data.take 2)
  else if data_len = 4 then readLE (data.take 4) % 2 ^ 16
  else 0

/-- `uint32_from_data` (nspy_glue.c:114-140). The C function declares its
accumulator as `uint16 ret;` (line 117) although the function returns
`uint32`, so every branch's value is truncated to 16 bits when stored:
width 1 stores `(uint32) *u8` into the `uint16`, width 2 stores
`(uint32) *u16`, width 4 stores `*(uint32 *) data` — each modelled with the
`% 2 ^ 16` the narrowing assignment performs; any other width yields 0. -/
def uint32_from_data (data : List Byte) (data_len : Nat) : Nat :=
  if data_len = 1 then readLE (data.take 1) % 2 ^ 16
  else if data_len = 2 then readLE (data.take 2) % 2 ^ 16
  else if data_len = 4 then readLE (data.take 4) % 2 ^ 16
  else 0

/-- A native `ns_RESULT` status: the canonical OK sentinel or any other
(non-OK) code. -/
inductive NsResult where
  | ok : NsResult
  | failWith (code : Int) : NsResult
deriving DecidableEq, Repr

/-- `check_result_is_error` (nspy_glue.c:142-153): a status equal to `ns_OK`
is success (`none`); any other status retrieves the native last-error text
and raises it (`some msg`). The last-error text is oracle input since it
lives inside the vendor library. -/
def check_result_is_error (res : NsResult) (lastErrorMsg : String) : Option String :=
  match res with
  | NsResult.ok => none
  | NsResult.failWith _ => some lastErrorMsg

/-- Modelled from the spec: the event subtype tags (`ns_EVENT_TEXT`,
`ns_EVENT_CSV`, `ns_EVENT_BYTE`, `ns_EVENT_WORD`, `ns_EVENT_DWORD`) are
declared in the header `nsAPItypes.h`, which is not under `src/`; only their
identity matters to the `switch` in `do_get_event_data`, so they are modelled
as abstract distinct tags, with `other` covering every remaining code. -/
inductive EventType where
  | text : EventType
  | csv : EventType
  | byte : EventType
  | word : EventType
  | dword : EventType
  | other (code : Nat) : EventType
deriving DecidableEq, Repr

/-- The decoded payload of one event item: character data
(`PyString_FromStringAndSize`), a decoded unsigned integer (`PyInt_FromLong`
over one of the three decoders), or Python `None` for an unknown subtype. -/
inductive EventData where
  | chars (bytes : List Byte) : EventData
  | num (value : Nat) : EventData
  | null : EventData
deriving DecidableEq, Repr

/-- Whether the native buffer or array allocated by a data accessor was
released before returning (`free` / `Py_DECREF`) or had its ownership
transferred into the returned value. -/
inductive BufferFate where
  | freed : BufferFate
  | transferred : BufferFate
deriving DecidableEq, Repr

/-- The observable behaviour of one native `GetEventData` call: its status,
the vendor's last-error text, the timestamp it reports, the bytes it wrote
into the caller-allocated buffer, and the actual byte count it reports. -/
structure EventNative where
  res : NsResult
  lastErrorMsg : String
  timeStamp : ℚ
  filled : List Byte
  retSize : Nat

/-- `do_get_event_data` (nspy_glue.c:638-721): allocate a scratch buffer,
call `GetEventData`, on a non-OK status free the buffer and raise the
translated error; otherwise dispatch on the declared event subtype:
Text/CSV build a string of the first `data_ret_size` bytes, Byte/Word/Dword
apply the matching decoder to the buffer with `data_ret_size` as the width
argument, any other subtype yields `None`; the scratch buffer is freed after
the result tuple `(timestamp, payload)` is built. -/
def do_get_event_data (native : EventNative) (event_type : EventType) :
    Except String (ℚ × EventData) × BufferFate :=
  match check_result_is_error native.res native.lastErrorMsg with
  | some msg => (Except.error msg, BufferFate.freed)
  | none =>
    let data_obj : EventData :=
      match event_type with
      | EventType.text => EventData.chars (native.filled.take native.retSize)
      | EventType.csv => EventData.chars (native.filled.take native.retSize)
      | EventType.byte => EventData.num (uint8_from_data native.filled native.retSize)
      | EventType.word => EventData.num (uint16_from_data native.filled native.retSize)
      | EventType.dword => EventData.num (uint32_from_data native.filled native.retSize)
      | EventType.other _ => EventData.null
    (Except.ok (native.timeStamp, data_obj), BufferFate.freed)

/-- The resolved entry-point table of `NsLibrary` (nspy_glue.c:35-56): each
slot holds whatever `dlsym` returned for the fixed symbol name — possibly
absent (`none` models a NULL function pointer). Function pointers are
modelled as opaque addresses. -/
structure NsLibrary where
  dl_handle : Nat
  GetLibraryInfo : Option Nat
  OpenFile : Option Nat
  CloseFile : Option Nat
  GetFileInfo : Option Nat
  GetEntityInfo : Option Nat
  GetEventInfo : Option Nat
  GetEventData : Option Nat
  GetAnalogInfo : Option Nat
  GetAnalogData : Option Nat
  GetSegmentInfo : Option Nat
  GetSegmentSourceInfo : Option Nat
  GetSegmentData : Option Nat
  GetNeuralInfo : Option Nat
  GetNeuralData : Option Nat
  GetIndexByTime : Option Nat
  GetTimeByIndex : Option Nat
  GetLastErrorMsg : Option Nat
deriving DecidableEq, Repr

/-- `library_open` (nspy_glue.c:168-214): `dlopen` the file with `RTLD_NOW`;
on load failure raise a `LoadError` carrying the loader diagnostic; on
success fill every entry-point slot with the raw result of `dlsym` for its
fixed name — no slot is checked, so missing symbols never fail the open.
The dynamic loader is the oracle: `dlopenResult` is the handle it returns
(or `none` on failure), `dlerrorText` its diagnostic, and `dlsym` its symbol
table, keyed by loaded handle and symbol name. -/
def library_open (dlopenResult : Option Nat) (dlerrorText : String)
    (dlsym : Nat → String → Option Nat) : Except String NsLibrary :=
  match dlopenResult with
  | none => Except.error ("Could not load library: " ++ dlerrorText)
  | some dlh =>
    Except.ok
      { dl_handle := dlh
        GetLibraryInfo := dlsym dlh "ns_GetLibraryInfo"
        OpenFile := dlsym dlh "ns_OpenFile"
        CloseFile := dlsym dlh "ns_CloseFile"
        GetFileInfo := dlsym dlh "ns_GetFileInfo"
        GetEntityInfo := dlsym dlh "ns_GetEntityInfo"
        GetEventInfo := dlsym dlh "ns_GetEventInfo"
        GetEventData := dlsym dlh "ns_GetEventData"
        GetAnalogInfo := dlsym dlh "ns_GetAnalogInfo"
        GetAnalogData := dlsym dlh "ns_GetAnalogData"
        GetSegmentInfo := dlsym dlh "ns_GetSegmentInfo"
        GetSegmentSourceInfo := dlsym dlh "ns_GetSegmentSourceInfo"
        GetSegmentData := dlsym dlh "ns_GetSegmentData"
        GetNeuralInfo := dlsym dlh "ns_GetNeuralInfo"
        GetNeuralData := dlsym dlh "ns_GetNeuralData"
        GetIndexByTime := dlsym dlh "ns_GetIndexByTime"
        GetTimeByIndex := dlsym dlh "ns_GetTimeByIndex"
        GetLastErrorMsg := dlsym dlh "ns_GetLastErrorMsg" }

/-- The C heap as far as `library_close` observes it: the set of addresses
of `NsLibrary` structs that were `malloc`ed by `library_open` and have not
been `free`d yet. Dereferencing an address outside this set is undefined
behaviour. -/
structure LibraryHeap where
  live : List Nat
deriving DecidableEq, Repr

/-- The outcome of one `library_close` call: Python `None` with the updated
heap, a raised error with the (unchanged) heap, or undefined behaviour
(the C code dereferenced and double-freed memory that was already freed). -/
inductive CloseResult where
  | ok (heap : LibraryHeap) : CloseResult
  | raised (msg : String) (heap : LibraryHeap) : CloseResult
  | undefinedBehavior : CloseResult
deriving DecidableEq, Repr

/-- `library_close` (nspy_glue.c:216-248): after the argument type check the
code unconditionally dereferences the handle's `NsLibrary` pointer and calls
`dlclose` on it — there is no liveness check of any kind, so a handle whose
struct was already freed is undefined behaviour. On `dlclose` failure it
raises and returns without freeing; on success it frees the struct. -/
def library_close (heap : LibraryHeap) (handle : Nat) (dlcloseFails : Bool)
    (dlerrorText : String) : CloseResult :=
  if handle ∈ heap.live then
    if dlcloseFails then
      CloseResult.raised ("Could not load library: " ++ dlerrorText) heap
    else
      CloseResult.ok { live := heap.live.erase handle }
  else
    CloseResult.undefinedBehavior

/-- The fields of a native `ns_SEGSOURCEINFO` record as projected by
`get_and_add_segment_source_info` (doubles as rationals, `dw` fields as
naturals, `sz` fields as strings). -/
structure SegSourceRec where
  dMinVal : ℚ
  dMaxVal : ℚ
  dSubSampleShift : ℚ
  dResolution : ℚ
  dLocationX : ℚ
  dLocationY : ℚ
  dLocationZ : ℚ
  dLocationUser : ℚ
  dHighFreqCorner : ℚ
  dwHighFreqOrder : Nat
  szHighFilterType : String
  dLowFreqCorner : ℚ
  dwLowFreqOrder : Nat
  szLowFilterType : String
  szProbeInfo : String
deriving DecidableEq, Repr

/-- `get_and_add_segment_source_info` (nspy_glue.c:465-509): a fresh empty
dict is created and stored into the list slot for `source_id` BEFORE the
native call; if `GetSegmentSourceInfo` fails the function returns that
status with the slot still holding the empty dict (`none`); on success it
copies every record field into the dict (`some rec`). The vendor call is the
oracle `sourceInfo`, giving the status and record per source id. -/
def get_and_add_segment_source_info (sourceInfo : Nat → NsResult × SegSourceRec)
    (source_id : Nat) : NsResult × Option SegSourceRec :=
  match sourceInfo source_id with
  | (NsResult.ok, rec) => (NsResult.ok, some rec)
  | (NsResult.failWith c, _) => (NsResult.failWith c, none)

/-- The fields of a native `ns_SEGMENTINFO` record read by
`get_and_add_segment_info`. -/
structure SegmentInfoRec where
  dwSourceCount : Nat
  dwMinSampleCount : Nat
  dwMaxSampleCount : Nat
  dSampleRate : ℚ
  szUnits : String
deriving DecidableEq, Repr

/-- The dict entries `get_and_add_segment_info` adds: the scalar segment
fields plus the `SourceInfos` list, one slot per source id in order (a slot
is `none` when its source-info call failed and left the pre-inserted dict
empty). -/
structure SegmentInfoOut where
  SourceCount : Nat
  MinSampleCount : Nat
  MaxSampleCount : Nat
  SampleRate : ℚ
  Units : String
  SourceInfos : List (Option SegSourceRec)
deriving DecidableEq, Repr

/-- `get_and_add_segment_info` (nspy_glue.c:512-543): call `GetSegmentInfo`;
on failure return that status (nothing added). On success add the scalar
fields, allocate the `SourceInfos` list of length `dwSourceCount`, and loop
`i = 0 .. dwSourceCount-1` calling `get_and_add_segment_source_info` — the
loop DISCARDS each call's returned status (line 536-537), so `res` still
holds `ns_OK` from `GetSegmentInfo` when it is returned, whether or not any
source-info call failed, and the list is attached to the dict regardless. -/
def get_and_add_segment_info (seg : NsResult × SegmentInfoRec)
    (sourceInfo : Nat → NsResult × SegSourceRec) :
    NsResult × Option SegmentInfoOut :=
  match seg with
  | (NsResult.failWith c, _) => (NsResult.failWith c, none)
  | (NsResult.ok, info) =>
    (NsResult.ok, some
      { SourceCount := info.dwSourceCount
        MinSampleCount := info.dwMinSampleCount
        MaxSampleCount := info.dwMaxSampleCount
        SampleRate := info.dSampleRate
        Units := info.szUnits
        SourceInfos := (List.range info.dwSourceCount).map
          (fun i => (get_and_add_segment_source_info sourceInfo i).2) })

/-- The Segment branch of `do_get_entity_info` (nspy_glue.c:618-631): the
status returned by `get_and_add_segment_info` goes through
`check_result_is_error`; on error the dict is dropped and the translated
error raised, otherwise the dict is returned. -/
def segment_entity_info (seg : NsResult × SegmentInfoRec)
    (sourceInfo : Nat → NsResult × SegSourceRec) (lastErrorMsg : String) :
    Except String SegmentInfoOut :=
  match get_and_add_segment_info seg sourceInfo with
  | (res, out) =>
    match check_result_is_error res lastErrorMsg, out with
    | some msg, _ => Except.error msg
    | none, some o => Except.ok o
    | none, none => Except.error lastErrorMsg

/-- The observable behaviour of one native `GetAnalogData` call: its status,
last-error text, the contiguous-sample count it reports, and the samples it
writes into the caller-allocated array (by flat index). -/
structure AnalogNative where
  res : NsResult
  lastErrorMsg : String
  contCount : Nat
  fill : Nat → ℚ

/-- `do_get_analog_data` (nspy_glue.c:723-793): allocate a 1-D float64
array of exactly `count` elements, pass its storage to `GetAnalogData`; on a
non-OK status DECREF the array and raise the translated error; otherwise
return the tuple `(array, cont_count)` with the array's ownership moved into
the tuple. -/
def do_get_analog_data (native : AnalogNative) (count : Nat) :
    Except String (List ℚ × Nat) × BufferFate :=
  let array := (List.range count).map native.fill
  match check_result_is_error native.res native.lastErrorMsg with
  | some msg => (Except.error msg, BufferFate.freed)
  | none => (Except.ok (array, native.contCount), BufferFate.transferred)

/-- Truncation of a rational toward zero: the C conversion applied when a
`double` is passed to `PyInt_FromLong`'s `long` parameter. `Int.tdiv` is
T-division, which rounds toward zero exactly as C does. -/
def truncToInt (q : ℚ) : Int := Int.tdiv q.num (q.den : Int)

/-- The rational 5/2, built directly from numerator and denominator so that
concrete evaluations reduce; used as a sample fractional timestamp. -/
def sampleTimeStamp : ℚ := ⟨5, 2, by decide, by decide⟩

/-- The observable behaviour of one native `GetSegmentData` call: status,
last-error text, the timestamp (a C `double`), the actual sample count and
unit id it reports, and the samples it writes into the 2-D array (by source
row and sample column). -/
structure SegmentDataNative where
  res : NsResult
  lastErrorMsg : String
  timeStamp : ℚ
  sampleCount : Nat
  unitId : Nat
  fill : Nat → Nat → ℚ

/-- `do_get_segment_data` (nspy_glue.c:795-876): allocate a 2-D float64
array shaped `sources × count`, pass its storage to `GetSegmentData`; on a
non-OK status DECREF the array and raise the translated error; otherwise
build the 4-tuple — the timestamp double is passed to `PyInt_FromLong`
(line 871), i.e. converted to an integer by truncation toward zero, while
the sample count and unit id stay integers. -/
def do_get_segment_data (native : SegmentDataNative) (sources count : Nat) :
    Except String (List (List ℚ) × Int × Nat × Nat) × BufferFate :=
  let array := (List.range sources).map
    (fun s => (List.range count).map (native.fill s))
  match check_result_is_error native.res native.lastErrorMsg with
  | some msg => (Except.error msg, BufferFate.freed)
  | none =>
    (Except.ok (array, truncToInt native.timeStamp, native.sampleCount, native.unitId),
     BufferFate.transferred)

/-- The observable behaviour of one native `GetNeuralData` call. -/
structure NeuralNative where
  res : NsResult
  lastErrorMsg : String
  fill : Nat → ℚ

/-- `do_get_neural_data` (nspy_glue.c:878-940): allocate a 1-D float64 array
of exactly `index_count` elements, pass its storage to `GetNeuralData`; on a
non-OK status DECREF the array and raise the translated error; otherwise
return the array itself. -/
def do_get_neural_data (native : NeuralNative) (index_count : Nat) :
    Except String (List ℚ) × BufferFate :=
  let array := (List.range index_count).map native.fill
  match check_result_is_error native.res native.lastErrorMsg with
  | some msg => (Except.error msg, BufferFate.freed)
  | none => (Except.ok array, BufferFate.transferred)

/-- A sample segment-source record used to instantiate the native oracle in
concrete evaluations. -/
def sampleSourceRec : SegSourceRec :=
  { dMinVal := -5
    dMaxVal := 5
    dSubSampleShift := 0
    dResolution := 1/2
    dLocationX := 0
    dLocationY := 0
    dLocationZ := 0
    dLocationUser := 0
    dHighFreqCorner := 300
    dwHighFreqOrder := 4
    szHighFilterType := "HP"
    dLowFreqCorner := 3000
    dwLowFreqOrder := 4
    szLowFilterType := "LP"
    szProbeInfo := "probe" }

/-- A sample segment-info record with one source. -/
def sampleSegInfo : SegmentInfoRec :=
  { dwSourceCount := 1
    dwMinSampleCount := 1
    dwMaxSampleCount := 2
    dSampleRate := 30000
    szUnits := "V" }

/-- The segment-info output produced from `sampleSegInfo` when the single
source-info call succeeds with `sampleSourceRec`. -/
def sampleSegOut : SegmentInfoOut :=
  { SourceCount := 1
    MinSampleCount := 1
    MaxSampleCount := 2
    SampleRate := 30000
    Units := "V"
    SourceInfos := [some sampleSourceRec] }

/-- Claim C1: each decoder at width w in 1,2,4 returns the native-endian
value of the first w bytes widened to its return width; in particular the
dword decoder at width 4 returns the full 32-bit value. This FAILS on the
code: `uint32_from_data` declares its accumulator `uint16 ret;`
(nspy_glue.c:117), so on the 4 well-formed bytes 00 00 01 00 — whose
little-endian 32-bit value is 65536 — it returns 65536 mod 2^16 = 0, not
65536. -/
theorem c1_uint32_from_data_truncates_dword :
    uint32_from_data ([0, 0, 1, 0] : List Byte) 4 = 0 ∧
      readLE ([0, 0, 1, 0] : List Byte) = 65536 := by decide

/-- Claim C2: in a successful `get_event_data` call with subtype Dword where
the native call filled 4 bytes, the result must be the raw 4 bytes as a
32-bit unsigned integer. This FAILS on the code for the same reason as C1:
on buffer 00 00 01 00 (value 65536) the accessor returns payload 0 because
`uint32_from_data` truncates through its `uint16` accumulator. -/
theorem c2_get_event_data_dword_truncated :
    (do_get_event_data
        { res := NsResult.ok
          lastErrorMsg := ""
          timeStamp := 1
          filled := ([0, 0, 1, 0] : List Byte)
          retSize := 4 }
        EventType.dword).1 = Except.ok ((1 : ℚ), EventData.num 0) ∧
      readLE ([0, 0, 1, 0] : List Byte) = 65536 := ⟨rfl, by decide⟩

/-- Claim C3: a failure of any individual source-info call must abort the
whole segment-info operation with that source's error, and the sequence must
not be returned. This FAILS on the code: the loop in
`get_and_add_segment_info` discards each `get_and_add_segment_source_info`
status, so with 2 sources where source 1 fails the operation still returns
OK together with the sequence, source 1's slot being the pre-inserted empty
dict. -/
theorem c3_segment_info_swallows_source_failure :
    segment_entity_info
        (NsResult.ok,
          { dwSourceCount := 2
            dwMinSampleCount := 1
            dwMaxSampleCount := 2
            dSampleRate := 30000
            szUnits := "V" })
        (fun i => if i = 0 then (NsResult.ok, sampleSourceRec)
                  else (NsResult.failWith 3, sampleSourceRec))
        "native error" =
      Except.ok
        { SourceCount := 2
          MinSampleCount := 1
          MaxSampleCount := 2
          SampleRate := 30000
          Units := "V"
          SourceInfos := [some sampleSourceRec, none] } := rfl

/-- Claim C6: a second `close_library` on the same handle must be rejected
as a checked usage error. This FAILS on the code: `library_close` performs
no liveness check — after a first successful close frees the `NsLibrary`
struct, a second close on the same handle dereferences and double-frees
freed memory (undefined behaviour), which is a different outcome from any
raised error. -/
theorem c6_double_close_is_undefined_not_checked :
    library_close { live := [7] } 7 false "" = CloseResult.ok { live := [] } ∧
      library_close { live := [] } 7 false "" = CloseResult.undefinedBehavior ∧
      CloseResult.undefinedBehavior ≠
        CloseResult.raised "native error" { live := [] } := by decide

/-- Claim C8: for every byte buffer and every declared width other than
1, 2 or 4, each of the three decoders returns 0 rather than raising an
error (the `else` branch of each decoder). -/
theorem c8_decoders_zero_on_unknown_width (data : List Byte) (data_len : Nat)
    (h1 : data_len ≠ 1) (h2 : data_len ≠ 2) (h4 : data_len ≠ 4) :
    uint8_from_data data data_len = 0 ∧ uint16_from_data data data_len = 0 ∧
      uint32_from_data data data_len = 0 := by
  unfold uint8_from_data uint16_from_data uint32_from_data
  simp [h1, h2, h4]

/-- Witness for C8 at the concrete buffer [171] and width 3. -/
theorem c8_decoders_zero_on_unknown_width_witness :
    uint8_from_data ([171] : List Byte) 3 = 0 ∧
      uint16_from_data ([171] : List Byte) 3 = 0 ∧
      uint32_from_data ([171] : List Byte) 3 = 0 :=
  c8_decoders_zero_on_unknown_width ([171] : List Byte) 3
    (by decide) (by decide) (by decide)

/-- Claim C9: whenever `dlopen` succeeds, `library_open` succeeds and
returns a handle whose entry-point slots each hold exactly what `dlsym`
returned for that slot's fixed symbol name — for every symbol table,
including ones where lookups fail (`none`): missing symbols never fail the
open. -/
theorem c9_library_open_stores_dlsym_results (dlh : Nat) (dlerr : String)
    (dlsym : Nat → String → Option Nat) :
    library_open (some dlh) dlerr dlsym =
      Except.ok
        { dl_handle := dlh
          GetLibraryInfo := dlsym dlh "ns_GetLibraryInfo"
          OpenFile := dlsym dlh "ns_OpenFile"
          CloseFile := dlsym dlh "ns_CloseFile"
          GetFileInfo := dlsym dlh "ns_GetFileInfo"
          GetEntityInfo := dlsym dlh "ns_GetEntityInfo"
          GetEventInfo := dlsym dlh "ns_GetEventInfo"
          GetEventData := dlsym dlh "ns_GetEventData"
          GetAnalogInfo := dlsym dlh "ns_GetAnalogInfo"
          GetAnalogData := dlsym dlh "ns_GetAnalogData"
          GetSegmentInfo := dlsym dlh "ns_GetSegmentInfo"
          GetSegmentSourceInfo := dlsym dlh "ns_GetSegmentSourceInfo"
          GetSegmentData := dlsym dlh "ns_GetSegmentData"
          GetNeuralInfo := dlsym dlh "ns_GetNeuralInfo"
          GetNeuralData := dlsym dlh "ns_GetNeuralData"
          GetIndexByTime := dlsym dlh "ns_GetIndexByTime"
          GetTimeByIndex := dlsym dlh "ns_GetTimeByIndex"
          GetLastErrorMsg := dlsym dlh "ns_GetLastErrorMsg" } := rfl

/-- Claim C4: every successful `get_analog_data` call with requested sample
count N returns an array of length exactly N (the array is fully allocated
up front) and a contiguous count at most N. The contiguous count is passed
through from the native call unchecked, so the bound relies on the vendor
contract (the spec assumes vendor correctness) that the native library never
reports more contiguous samples than were requested. -/
theorem c4_analog_array_length_and_cont_count (native : AnalogNative)
    (count : Nat) (array : List ℚ) (cc : Nat)
    (hok : (do_get_analog_data native count).1 = Except.ok (array, cc))
    (hvendor : native.contCount ≤ count) :
    array.length = count ∧ cc ≤ count := by
  cases hres : native.res with
  | failWith c =>
    simp [do_get_analog_data, check_result_is_error, hres] at hok
  | ok =>
    simp [do_get_analog_data, check_result_is_error, hres] at hok
    obtain ⟨ha, hc⟩ := hok
    subst hc
    refine ⟨?_, hvendor⟩
    rw [← ha]
    simp

/-- Witness for C4: requested count 3, native reports 2 contiguous samples
and fills the array with zeros. -/
theorem c4_analog_array_length_and_cont_count_witness :
    ([(0 : ℚ), 0, 0] : List ℚ).length = 3 ∧ 2 ≤ 3 :=
  c4_analog_array_length_and_cont_count
    { res := NsResult.ok, lastErrorMsg := "", contCount := 2, fill := fun _ => 0 }
    3 [(0 : ℚ), 0, 0] 2 rfl (by decide)

/-- Claim C5: for every successful Segment-kind entity-info query the
returned `SourceInfos` sequence has length exactly the native-reported
source count, and the slot at index i holds exactly the record the native
source-info call returned for source id i — native source-index order is
preserved by `PyList_SetItem (list, source_id, dict)`. -/
theorem c5_segment_source_infos_ordered (info : SegmentInfoRec)
    (sourceInfo : Nat → NsResult × SegSourceRec) (lastErrorMsg : String)
    (out : SegmentInfoOut) (i : Nat) (rec : SegSourceRec)
    (hok : segment_entity_info (NsResult.ok, info) sourceInfo lastErrorMsg =
      Except.ok out)
    (hi : i < info.dwSourceCount)
    (hsi : sourceInfo i = (NsResult.ok, rec)) :
    out.SourceInfos.length = info.dwSourceCount ∧
      out.SourceInfos[i]? = some (some rec) := by
  simp only [segment_entity_info, get_and_add_segment_info,
    check_result_is_error, Except.ok.injEq] at hok
  subst hok
  refine ⟨by simp, ?_⟩
  simp [List.getElem?_map, List.getElem?_range, hi,
    get_and_add_segment_source_info, hsi]

/-- Witness for C5: one source whose info call succeeds with
`sampleSourceRec`. -/
theorem c5_segment_source_infos_ordered_witness :
    sampleSegOut.SourceInfos.length = sampleSegInfo.dwSourceCount ∧
      sampleSegOut.SourceInfos[0]? = some (some sampleSourceRec) :=
  c5_segment_source_infos_ordered sampleSegInfo
    (fun _ => (NsResult.ok, sampleSourceRec)) "" sampleSegOut 0 sampleSourceRec
    rfl (by decide) rfl

/-- Claim C7: whenever the native data entry point reports a non-OK status,
each of the four data accessors frees the buffer/array it allocated for the
call and raises the translated error — the caller receives no partially
filled array or payload. -/
theorem c7_accessors_free_and_raise_on_native_failure
    (ev : EventNative) (et : EventType) (an : AnalogNative) (count : Nat)
    (sg : SegmentDataNative) (sources scount : Nat)
    (ne : NeuralNative) (icount : Nat)
    (hev : ev.res ≠ NsResult.ok) (han : an.res ≠ NsResult.ok)
    (hsg : sg.res ≠ NsResult.ok) (hne : ne.res ≠ NsResult.ok) :
    do_get_event_data ev et = (Except.error ev.lastErrorMsg, BufferFate.freed) ∧
      do_get_analog_data an count =
        (Except.error an.lastErrorMsg, BufferFate.freed) ∧
      do_get_segment_data sg sources scount =
        (Except.error sg.lastErrorMsg, BufferFate.freed) ∧
      do_get_neural_data ne icount =
        (Except.error ne.lastErrorMsg, BufferFate.freed) := by
  refine ⟨?_, ?_, ?_, ?_⟩
  · cases h : ev.res with
    | ok => exact absurd h hev
    | failWith c => simp [do_get_event_data, check_result_is_error, h]
  · cases h : an.res with
    | ok => exact absurd h han
    | failWith c => simp [do_get_analog_data, check_result_is_error, h]
  · cases h : sg.res with
    | ok => exact absurd h hsg
    | failWith c => simp [do_get_segment_data, check_result_is_error, h]
  · cases h : ne.res with
    | ok => exact absurd h hne
    | failWith c => simp [do_get_neural_data, check_result_is_error, h]

/-- Witness for C7: all four natives fail with code 1 and last-error text
"boom". -/
theorem c7_accessors_free_and_raise_on_native_failure_witness :
    do_get_event_data
        { res := NsResult.failWith 1, lastErrorMsg := "boom", timeStamp := 0,
          filled := [], retSize := 0 } EventType.text =
      (Except.error "boom", BufferFate.freed) ∧
      do_get_analog_data
          { res := NsResult.failWith 1, lastErrorMsg := "boom", contCount := 0,
            fill := fun _ => 0 } 2 =
        (Except.error "boom", BufferFate.freed) ∧
      do_get_segment_data
          { res := NsResult.failWith 1, lastErrorMsg := "boom", timeStamp := 0,
            sampleCount := 0, unitId := 0, fill := fun _ _ => 0 } 1 2 =
        (Except.error "boom", BufferFate.freed) ∧
      do_get_neural_data
          { res := NsResult.failWith 1, lastErrorMsg := "boom",
            fill := fun _ => 0 } 2 =
        (Except.error "boom", BufferFate.freed) :=
  c7_accessors_free_and_raise_on_native_failure
    { res := NsResult.failWith 1, lastErrorMsg := "boom", timeStamp := 0,
      filled := [], retSize := 0 } EventType.text
    { res := NsResult.failWith 1, lastErrorMsg := "boom", contCount := 0,
      fill := fun _ => 0 } 2
    { res := NsResult.failWith 1, lastErrorMsg := "boom", timeStamp := 0,
      sampleCount := 0, unitId := 0, fill := fun _ _ => 0 } 1 2
    { res := NsResult.failWith 1, lastErrorMsg := "boom", fill := fun _ => 0 } 2
    (by decide) (by decide) (by decide) (by decide)

/-- Claim C10: a successful `get_segment_data` call returns the native
double timestamp through `PyInt_FromLong`, i.e. truncated toward zero to an
integer, while `get_event_data` returns its timestamp unchanged as float64;
truncation loses fractional seconds, e.g. 5/2 becomes 2. -/
theorem c10_segment_timestamp_truncated
    (sg : SegmentDataNative) (sources count : Nat)
    (arr : List (List ℚ)) (ts : Int) (sc uid : Nat)
    (ev : EventNative) (et : EventType) (evts : ℚ) (p : EventData)
    (hsg : (do_get_segment_data sg sources count).1 =
      Except.ok (arr, ts, sc, uid))
    (hev : (do_get_event_data ev et).1 = Except.ok (evts, p)) :
    ts = truncToInt sg.timeStamp ∧ evts = ev.timeStamp ∧
      truncToInt sampleTimeStamp = 2 ∧ (sampleTimeStamp ≠ (2 : ℚ)) := by
  refine ⟨?_, ?_, by decide, by decide⟩
  · cases h : sg.res with
    | ok =>
      simp [do_get_segment_data, check_result_is_error, h] at hsg
      exact hsg.2.1.symm
    | failWith c =>
      simp [do_get_segment_data, check_result_is_error, h] at hsg
  · cases h : ev.res with
    | ok =>
      simp [do_get_event_data, check_result_is_error, h] at hev
      exact hev.1.symm
    | failWith c =>
      simp [do_get_event_data, check_result_is_error, h] at hev

/-- Witness for C10: the native reports timestamp 5/2; the segment accessor
returns 2, the event accessor returns 5/2. -/
theorem c10_segment_timestamp_truncated_witness :
    (2 : Int) = truncToInt sampleTimeStamp ∧
      sampleTimeStamp = sampleTimeStamp ∧
      truncToInt sampleTimeStamp = 2 ∧ (sampleTimeStamp ≠ (2 : ℚ)) := by
  have h := c10_segment_timestamp_truncated
    { res := NsResult.ok, lastErrorMsg := "", timeStamp := sampleTimeStamp,
      sampleCount := 4, unitId := 3, fill := fun _ _ => 0 } 1 1
    [[(0 : ℚ)]] 2 4 3
    { res := NsResult.ok, lastErrorMsg := "", timeStamp := sampleTimeStamp,
      filled := [], retSize := 0 } EventType.text sampleTimeStamp
    (EventData.chars []) rfl rfl
  exact h
